import Mathlib

/-!
Verification of the filesorter core (ElXreno/filesorter).

Shallow embedding of `src/settings.rs` and `src/utils.rs`:
filesystem paths are lists of components (`FsPath`), the filesystem is an
association list from paths to nodes, machine timestamps are seconds since
the Unix epoch as `Nat`, and Rust panics are modelled as `Except` errors
that abort the surrounding computation.
-/

namespace FileSorter

/-- A filesystem path, as its list of components (Rust `PathBuf`;
`join` is list append of a component). -/
abbrev FsPath := List String

/-- One sorting rule (Rust `SortPattern` in `settings.rs`): extension
matchers, MIME-type matchers and a destination label. -/
structure SortPattern where
  extensions : List String
  mime_types : List String
  destination : String
deriving DecidableEq, Repr

/-- The configuration record (Rust `Settings` in `settings.rs`). -/
structure Settings where
  sources : List FsPath
  destination : FsPath
  use_date_pattern : Bool
  date_pattern : String
  sort_patterns : List SortPattern
deriving DecidableEq, Repr

/-! ### Civil-date arithmetic and `chrono`-style formatting

`get_destination_dir` formats the file's modification time with
`chrono`'s `DateTime::<Utc>::format`.  We model the timestamp as seconds
since the Unix epoch (`Nat`) and implement the proleptic-Gregorian
conversion for the format specifiers the program can meet
(`%Y`, `%m`, `%d`, `%H`, `%M`, `%S`, `%%`; other characters are literal). -/

/-- Convert a count of days since 1970-01-01 to a civil `(year, month, day)`
triple in the proleptic Gregorian calendar. -/
def civilFromDays (z : Nat) : Nat × Nat × Nat :=
  let z' := z + 719468
  let era := z' / 146097
  let doe := z' % 146097
  let yoe := (doe - doe / 1460 + doe / 36524 - doe / 146097) / 365
  let y := yoe + era * 400
  let doy := doe - (365 * yoe + yoe / 4 - yoe / 100)
  let mp := (5 * doy + 2) / 153
  let d := doy - (153 * mp + 2) / 5 + 1
  let m := if mp < 10 then mp + 3 else mp - 9
  (if m ≤ 2 then y + 1 else y, m, d)

/-- Zero-pad a number to two digits, as `chrono` does for `%m`, `%d`, …. -/
def pad2 (n : Nat) : String :=
  if n < 10 then "0" ++ toString n else toString n

/-- Zero-pad a year to four digits, as `chrono` does for `%Y`. -/
def pad4 (n : Nat) : String :=
  if n < 10 then "000" ++ toString n
  else if n < 100 then "00" ++ toString n
  else if n < 1000 then "0" ++ toString n
  else toString n

/-- Interpret a `strftime`-style pattern over broken-down UTC time fields. -/
def fmtChars : List Char → Nat → Nat → Nat → Nat → Nat → Nat → String
  | [], _, _, _, _, _, _ => ""
  | '%' :: c :: rest, y, mo, d, hh, mi, ss =>
    (match c with
     | 'Y' => pad4 y
     | 'm' => pad2 mo
     | 'd' => pad2 d
     | 'H' => pad2 hh
     | 'M' => pad2 mi
     | 'S' => pad2 ss
     | '%' => "%"
     | c' => String.singleton '%' ++ String.singleton c') ++
      fmtChars rest y mo d hh mi ss
  | c :: rest, y, mo, d, hh, mi, ss =>
    String.singleton c ++ fmtChars rest y mo d hh mi ss

/-- Format a UTC timestamp (seconds since the Unix epoch) with a
`strftime`-style pattern, modelling `modify_date.format(pattern)`. -/
def formatDate (pat : String) (secs : Nat) : String :=
  let days := secs / 86400
  let rem := secs % 86400
  let c := civilFromDays days
  fmtChars pat.data c.1 c.2.1 c.2.2 (rem / 3600) (rem % 3600 / 60) (rem % 60)

/-! ### Panic model and destination resolution -/

/-- The panic sites of `utils.rs`; a panic aborts the whole process. -/
inductive Panic where
  /-- `metadata.unwrap()` / `.modified().unwrap()` in `get_destination_dir`
  panicked because the file's metadata could not be read. -/
  | metadataUnwrap : Panic
  /-- `create_dir`: the path exists but is not a directory. -/
  | notADirectory : Panic
  /-- `create_dir`: `std::fs::create_dir_all` returned an error. -/
  | createDirFailed : Panic
  /-- `move_file`: `std::fs::rename` returned an error. -/
  | renameFailed : Panic
deriving DecidableEq, Repr

/-- Embedding of `utils.rs::get_destination_dir`.  The file's metadata read
is represented by `mtime : Option Nat` (`none` when the filesystem cannot
provide the modification time, in which case the `unwrap` panics).  In the
non-date branch the file is never consulted. -/
def get_destination_dir (settings : Settings) (mtime : Option Nat)
    (destination : String) : Except Panic FsPath :=
  if settings.use_date_pattern then
    match mtime with
    | none => .error .metadataUnwrap
    | some t =>
      let date_folder := formatDate settings.date_pattern t
      .ok (settings.destination ++ [date_folder] ++ [destination])
  else
    .ok (settings.destination ++ [destination])

/-! ### Filesystem model, `create_dir` and `move_file` -/

/-- A filesystem node: a regular file or a directory. -/
inductive Node where
  | file : Node
  | dir : Node
deriving DecidableEq, Repr

/-- A filesystem state: an association list from paths to nodes. -/
abbrev Fs := List (FsPath × Node)

/-- Look a path up in the filesystem. -/
def Fs.lookup (fs : Fs) (p : FsPath) : Option Node :=
  (fs.find? (fun e => e.1 = p)).map (·.2)

/-- Does the path exist (Rust `path.exists()`)? -/
def Fs.present (fs : Fs) (p : FsPath) : Bool :=
  (Fs.lookup fs p).isSome

/-- Is the path an existing directory (Rust `path.is_dir()`)? -/
def Fs.isDir (fs : Fs) (p : FsPath) : Bool :=
  Fs.lookup fs p == some Node.dir

/-- All non-empty prefixes of a path, shortest first, the path itself last:
the components `std::fs::create_dir_all` walks. -/
def prefixesOf (p : FsPath) : List FsPath :=
  (List.range p.length).map (fun i => p.take (i + 1))

/-- Can `create_dir_all` succeed: every component along the path is either
absent or already a directory. -/
def canCreateAll (fs : Fs) (p : FsPath) : Bool :=
  (prefixesOf p).all (fun q => !Fs.present fs q || Fs.isDir fs q)

/-- The filesystem after `create_dir_all`: every missing component becomes
a directory. -/
def mkdirAll (fs : Fs) (p : FsPath) : Fs :=
  (((prefixesOf p).filter (fun q => !Fs.present fs q)).map
    (fun q => (q, Node.dir))) ++ fs

/-- Embedding of `utils.rs::create_dir`: if the path does not exist, run
`create_dir_all` and panic on its error; if it exists but is not a
directory, panic; otherwise do nothing. -/
def create_dir (fs : Fs) (p : FsPath) : Except Panic Fs :=
  if !Fs.present fs p then
    if canCreateAll fs p then .ok (mkdirAll fs p)
    else .error .createDirFailed
  else if !Fs.isDir fs p then .error .notADirectory
  else .ok fs

/-- Modelled from the spec: the `std::fs::rename` move primitive (a syscall,
not code of this repository) — "atomic rename within the same filesystem;
fails if the destination already exists, …".  On failure the filesystem is
untouched; on success the source entry is re-keyed to the destination. -/
def renameFile (fs : Fs) (src dst : FsPath) : Option Fs :=
  match Fs.lookup fs src with
  | none => none
  | some n =>
    if Fs.present fs dst then none
    else some ((dst, n) :: fs.filter (fun e => !(e.1 == src)))

/-- Embedding of `utils.rs::move_file`: ensure the destination directory
exists (its panics propagate), then rename; a rename error panics.  The
error carries the filesystem state at the moment of the panic. -/
def move_file (fs : Fs) (file : FsPath) (destination_dir : FsPath)
    (destination_file : FsPath) : Except (Panic × Fs) Fs :=
  match create_dir fs destination_dir with
  | .error p => .error (p, fs)
  | .ok fs1 =>
    match renameFile fs1 file destination_file with
    | none => .error (.renameFailed, fs1)
    | some fs2 => .ok fs2

/-! ### Rule matching -/

/-- The characters after the last dot of the list, or `none` when the list
has no dot. -/
def afterLastDot : List Char → Option (List Char)
  | [] => none
  | c :: rest =>
    match afterLastDot rest with
    | some e => some e
    | none => if c == '.' then some rest else none

/-- Modelled from the spec: the file-extension extraction used by matching
(the matcher itself lives in the orchestrator, which is not under `src`) —
"the file's extension (lowercased, taken as the substring after the final
dot in the filename, empty if none)". -/
def extOf (filename : String) : String :=
  match afterLastDot filename.data with
  | none => ""
  | some e => String.mk (e.map Char.toLower)

/-- Modelled from the spec: "match succeeds if the file's extension … is a
member of `rule.extensions`, OR the supplied `mime_hint` is a member of
`rule.mime_types`". -/
def ruleMatches (r : SortPattern) (filename : String)
    (mime_hint : Option String) : Bool :=
  r.extensions.contains (extOf filename) ||
    (match mime_hint with
     | some m => r.mime_types.contains m
     | none => false)

/-- Modelled from the spec: `find_match` — "iterate rules in list order; …
Return the first rule for which either condition holds. If no rule
matches, return none." -/
def find_match (rules : List SortPattern) (filename : String)
    (mime_hint : Option String) : Option SortPattern :=
  rules.find? (fun r => ruleMatches r filename mime_hint)

/-! ### The relocation run -/

/-- A candidate file: its path, the result of reading its modification
time (`none` when metadata is unreadable), and the MIME hint supplied by
the detection collaborator. -/
structure FileCand where
  path : FsPath
  mtime : Option Nat
  hint : Option String
deriving DecidableEq, Repr

/-- The filename of a candidate: the last path component. -/
def filenameOf (p : FsPath) : String := p.getLastD ""

/-- A per-file relocation outcome (spec §3 `RelocationOutcome`). -/
inductive Outcome where
  | moved : FsPath → FsPath → Outcome
  | unmatched : FsPath → Outcome
  | failed : FsPath → Panic → Outcome
deriving DecidableEq, Repr

/-- Modelled from the spec: the per-file step of the relocation loop (the
orchestrator is not under `src`) — match, resolve, ensure directory, move —
but performing each step with the embedded `src` functions, whose panics
abort the computation (carrying the filesystem at the abort). -/
def processFile (s : Settings) (fs : Fs) (f : FileCand) :
    Except (Panic × Fs) (Fs × Outcome) :=
  match find_match s.sort_patterns (filenameOf f.path) f.hint with
  | none => .ok (fs, .unmatched f.path)
  | some rule =>
    match get_destination_dir s f.mtime rule.destination with
    | .error p => .error (p, fs)
    | .ok dir =>
      let dst := dir ++ [filenameOf f.path]
      match move_file fs f.path dir dst with
      | .error e => .error e
      | .ok fs2 => .ok (fs2, .moved f.path dst)

/-- Modelled from the spec: the relocation run — "processed one file at a
time, in input order"; a panic in any step aborts the whole run. -/
def relocate (s : Settings) (fs : Fs) (files : List FileCand) :
    Except (Panic × Fs) (Fs × List Outcome) :=
  match files with
  | [] => .ok (fs, [])
  | f :: rest =>
    match processFile s fs f with
    | .error e => .error e
    | .ok (fs1, o) =>
      match relocate s fs1 rest with
      | .error e => .error e
      | .ok (fs2, os) => .ok (fs2, o :: os)

/-! ### Default settings, builder methods, and loading -/

/-- Embedding of `impl Default for Settings` in `settings.rs`: the shipped
rule list, empty sources, empty destination, date pattern disabled. -/
def Settings.default : Settings where
  sources := []
  destination := []
  use_date_pattern := false
  date_pattern := ""
  sort_patterns :=
    [ { extensions := ["7z", "gz", "rar", "tar", "tgz", "xz", "zip", "zst"],
        mime_types := [], destination := "archives" },
      { extensions := ["flac", "mp3", "ogg", "opus", "wav"],
        mime_types := [], destination := "audio" },
      { extensions := ["exe", "bin"],
        mime_types := ["application/x-pie-executable",
                       "application/x-sharedlib"],
        destination := "binary" },
      { extensions := ["gif", "jpeg", "jpg", "png", "tif"],
        mime_types := [], destination := "images" },
      { extensions := ["avi", "mkv", "mp4"],
        mime_types := [], destination := "videos" },
      { extensions := ["csv", "djvu", "doc", "docx", "epub", "odt", "pdf",
                       "ppt", "pptx", "txt"],
        mime_types := [], destination := "docs" },
      { extensions := ["rpm", "spec"],
        mime_types := [], destination := "rpm-packages" },
      { extensions := ["deb"],
        mime_types := [], destination := "debian-packages" },
      { extensions := ["apk", "apkx"],
        mime_types := [], destination := "apks" },
      { extensions := ["torrent"],
        mime_types := [], destination := "torrents" },
      { extensions := ["jar"],
        mime_types := [], destination := "jars" },
      { extensions := ["xml"],
        mime_types := [], destination := "xml" },
      { extensions := ["img"],
        mime_types := [], destination := "raw" },
      { extensions := ["eot", "ttf", "woff", "woff2"],
        mime_types := [], destination := "fonts" },
      { extensions := ["ovpn"],
        mime_types := [], destination := "openvpn-profiles" },
      { extensions := ["pcap"],
        mime_types := [], destination := "captured-packages" },
      { extensions := ["vsix"],
        mime_types := [], destination := "vscode-extensions" } ]

/-- Embedding of `Settings::add_source`: push one source path. -/
def Settings.add_source (s : Settings) (source : FsPath) : Settings :=
  { s with sources := s.sources ++ [source] }

/-- Embedding of the `Settings::destination` builder method. -/
def Settings.setDestination (s : Settings) (destination : FsPath) : Settings :=
  { s with destination := destination }

/-- Embedding of the `Settings::use_date_pattern` builder method. -/
def Settings.setUseDatePattern (s : Settings) (use_date_pattern : Bool) :
    Settings :=
  { s with use_date_pattern := use_date_pattern }

/-- Embedding of the `Settings::date_pattern` builder method. -/
def Settings.setDatePattern (s : Settings) (date_pattern : String) : Settings :=
  { s with date_pattern := date_pattern }

/-- What `Settings::load` found on disk: no settings file at all, a file
that parses to some settings, or a file the parser rejects. -/
inductive SettingsFile where
  | absent : SettingsFile
  | parsed : Settings → SettingsFile
  | malformed : SettingsFile
deriving DecidableEq, Repr

/-- Side actions `Settings::load` can take on the settings file. -/
inductive LoadAction where
  /-- The corrupt file was renamed aside to `settings.json.invalid`. -/
  | renamedAside : LoadAction
deriving DecidableEq, Repr

/-- Embedding of `Settings::load`: absent file → defaults; parse success →
the parsed settings; parse failure → rename the corrupt file aside and
fall back to defaults.  The function is total: no error is propagated. -/
def Settings.load (found : SettingsFile) : Settings × List LoadAction :=
  match found with
  | .absent => (Settings.default, [])
  | .parsed s => (s, [])
  | .malformed => (Settings.default, [.renamedAside])

/-! ### Sanity checks on the embedding -/

example : civilFromDays 18262 = (2020, 1, 1) := by decide

example : formatDate "%Y-%m-%d" 1577836800 = "2020-01-01" := by decide

example : extOf "Archive.TAR.GZ" = "gz" := by decide

example : extOf "notes" = "" := by decide

/-! ### Concrete instances used by witnesses and counterexamples -/

/-- A rule sending `zip` files to `archives`. -/
def ruleA : SortPattern := ⟨["zip"], [], "archives"⟩

/-- A later rule that also matches `zip` files, by extension and by MIME. -/
def ruleB : SortPattern := ⟨["zip"], ["application/zip"], "other"⟩

/-- A one-rule configuration without the date pattern. -/
def cfgPlain : Settings := ⟨[], ["out"], false, "", [ruleA]⟩

/-- A one-rule configuration with the date pattern enabled. -/
def cfgDated : Settings := ⟨[], ["out"], true, "%Y-%m-%d", [ruleA]⟩

/-- A candidate `zip` file with a readable modification time. -/
def candA : FileCand := ⟨["src", "a.zip"], some 0, none⟩

/-- A second candidate `zip` file. -/
def candB : FileCand := ⟨["src", "b.zip"], some 0, none⟩

/-- A candidate whose metadata read fails. -/
def candNoMeta : FileCand := ⟨["src", "a.zip"], none, none⟩

/-- A filesystem in which `candA`'s destination file already exists, so
the rename step fails. -/
def fsCollide : Fs :=
  [ (["out"], Node.dir), (["out", "archives"], Node.dir),
    (["out", "archives", "a.zip"], Node.file),
    (["src"], Node.dir), (["src", "a.zip"], Node.file),
    (["src", "b.zip"], Node.file) ]

/-- A filesystem in which the destination root exists as a regular file. -/
def fsRootIsFile : Fs :=
  [ (["out"], Node.file), (["src"], Node.dir),
    (["src", "a.zip"], Node.file) ]

/-- A plain source filesystem with the two candidates. -/
def fsPlain : Fs :=
  [ (["src"], Node.dir), (["src", "a.zip"], Node.file),
    (["src", "b.zip"], Node.file), (["out"], Node.dir) ]

/-! ### Helper lemmas -/

/-- The modification timestamp 2020-01-01T00:00:00Z, formatted with the
default pattern, is the folder name "2020-01-01". -/
lemma formatDate_ymd_epoch2020 : formatDate "%Y-%m-%d" 1577836800 = "2020-01-01" := by
  decide

/-- A successful `find?` returns the first element satisfying the
predicate: every earlier element fails it. -/
lemma find?_first_match {α : Type} (p : α → Bool) :
    ∀ (l : List α) (a : α), l.find? p = some a →
      ∃ i : Fin l.length, l.get i = a ∧ p a = true ∧
        ∀ j : Fin l.length, (j : Nat) < (i : Nat) → p (l.get j) = false := by
  intro l
  induction l with
  | nil => intro a h; simp [List.find?] at h
  | cons x tl ih =>
    intro a h
    by_cases hx : p x
    · rw [List.find?_cons_of_pos _ hx] at h
      cases h
      exact ⟨⟨0, Nat.succ_pos _⟩, rfl, hx,
        fun j hj => absurd hj (Nat.not_lt_zero _)⟩
    · rw [List.find?_cons_of_neg _ hx] at h
      obtain ⟨i, hget, hpa, hfirst⟩ := ih a h
      refine ⟨⟨i.1 + 1, Nat.succ_lt_succ i.2⟩, hget, hpa, ?_⟩
      intro j hj
      match j with
      | ⟨0, _⟩ => simpa using hx
      | ⟨k + 1, hk⟩ =>
        exact hfirst ⟨k, Nat.lt_of_succ_lt_succ hk⟩
          (Nat.lt_of_succ_lt_succ hj)

/-- Lookup skips a block of entries none of which carries the key. -/
lemma Fs.lookup_append_miss (pre fs : Fs) (q : FsPath)
    (h : ∀ e ∈ pre, e.1 ≠ q) :
    Fs.lookup (pre ++ fs) q = Fs.lookup fs q := by
  unfold Fs.lookup
  rw [List.find?_append]
  have hnone : pre.find? (fun e => decide (e.1 = q)) = none := by
    rw [List.find?_eq_none]
    intro x hx
    simp [h x hx]
  rw [hnone]
  rfl

/-- `create_dir_all` does not disturb paths that were already present. -/
lemma lookup_mkdirAll_present (fs : Fs) (p q : FsPath)
    (h : Fs.present fs q = true) :
    Fs.lookup (mkdirAll fs p) q = Fs.lookup fs q := by
  unfold mkdirAll
  apply Fs.lookup_append_miss
  intro e he
  obtain ⟨r, hr, rfl⟩ := List.mem_map.mp he
  have habs := (List.mem_filter.mp hr).2
  intro hrq
  have hrq' : r = q := hrq
  rw [hrq', h] at habs
  simp at habs

/-- `create_dir_all` leaves a directory at a non-empty target that was
absent before. -/
lemma lookup_mkdirAll_self (fs : Fs) (p : FsPath) (hne : p ≠ [])
    (habs : Fs.present fs p = false) :
    Fs.lookup (mkdirAll fs p) p = some Node.dir := by
  unfold mkdirAll Fs.lookup
  rw [List.find?_append]
  have hmem : p ∈ (prefixesOf p).filter (fun q => !Fs.present fs q) := by
    apply List.mem_filter.mpr
    refine ⟨?_, by simp [habs]⟩
    unfold prefixesOf
    apply List.mem_map.mpr
    have hlen : 1 ≤ p.length := by
      cases p with
      | nil => exact absurd rfl hne
      | cons a l => exact Nat.succ_le_succ (Nat.zero_le _)
    refine ⟨p.length - 1, List.mem_range.mpr (Nat.sub_lt hlen Nat.one_pos), ?_⟩
    rw [Nat.sub_add_cancel hlen, List.take_length]
  have hsome :
      ((((prefixesOf p).filter fun q => !Fs.present fs q).map
        (fun q => (q, Node.dir))).find? (fun e => decide (e.1 = p))).isSome := by
    apply List.find?_isSome.mpr
    exact ⟨(p, Node.dir), List.mem_map.mpr ⟨p, hmem, rfl⟩, by simp⟩
  obtain ⟨e, he⟩ := Option.isSome_iff_exists.mp hsome
  have hdir : e.2 = Node.dir := by
    obtain ⟨r, _, hre⟩ := List.mem_map.mp (List.mem_of_find?_eq_some he)
    rw [← hre]
  rw [he]
  simp [hdir]

/-- After a successful `create_dir`, paths present beforehand keep their
node. -/
lemma create_dir_preserves_present (fs fs1 : Fs) (p q : FsPath)
    (h : create_dir fs p = .ok fs1) (hq : Fs.present fs q = true) :
    Fs.lookup fs1 q = Fs.lookup fs q := by
  unfold create_dir at h
  cases hp : Fs.present fs p <;> rw [hp] at h <;> simp at h
  · cases hc : canCreateAll fs p <;> rw [hc] at h <;> simp at h
    rw [← h]
    exact lookup_mkdirAll_present fs p q hq
  · cases hd : Fs.isDir fs p <;> rw [hd] at h <;> simp at h
    rw [← h]

/-! ### Theorems for the claims -/

/-- C1: destination resolution.  Without the date pattern the result is
`destination_root / matched_label`; with it and a readable modification
time the result is `destination_root / formatted_date / matched_label`;
in particular a file modified at 2020-01-01T00:00:00Z with pattern
"%Y-%m-%d" and label "images" resolves to
`destination_root/2020-01-01/images`. -/
theorem get_destination_dir_resolves (s : Settings) (mt : Option Nat)
    (t : Nat) (label : String) (root : FsPath) :
    (s.use_date_pattern = false →
      get_destination_dir s mt label = .ok (s.destination ++ [label])) ∧
    (s.use_date_pattern = true →
      get_destination_dir s (some t) label =
        .ok (s.destination ++ [formatDate s.date_pattern t] ++ [label])) ∧
    get_destination_dir ⟨[], root, true, "%Y-%m-%d", []⟩ (some 1577836800)
        "images" = .ok (root ++ ["2020-01-01"] ++ ["images"]) := by
  refine ⟨fun h => ?_, fun h => ?_, ?_⟩
  · simp [get_destination_dir, h]
  · simp [get_destination_dir, h]
  · simp [get_destination_dir, formatDate_ymd_epoch2020]

/-- C1 witness: the theorem applied to a concrete configuration. -/
theorem get_destination_dir_resolves_witness :
    get_destination_dir ⟨[], ["out"], false, "", []⟩ (some 5) "docs" =
      .ok (["out"] ++ ["docs"]) :=
  (get_destination_dir_resolves ⟨[], ["out"], false, "", []⟩ (some 5) 0
    "docs" []).1 rfl

/-- C7: with `use_date_pattern` off, resolution is independent of the
file's modification time (the metadata read result is never consulted). -/
theorem get_destination_dir_mtime_independent (s : Settings) (label : String)
    (mt1 mt2 : Option Nat) (h : s.use_date_pattern = false) :
    get_destination_dir s mt1 label = get_destination_dir s mt2 label := by
  simp [get_destination_dir, h]

/-- C7 witness: two concrete files with different timestamps and the same
label resolve identically. -/
theorem get_destination_dir_mtime_independent_witness :
    get_destination_dir ⟨[], ["out"], false, "", []⟩ (some 1) "images" =
      get_destination_dir ⟨[], ["out"], false, "", []⟩ (some 999999) "images" :=
  get_destination_dir_mtime_independent ⟨[], ["out"], false, "", []⟩ "images"
    (some 1) (some 999999) rfl

/-- C8: `Settings::load` is total over file states: an absent file yields
the defaults; a malformed file yields the defaults after the corrupt file
is renamed aside; a parse success is returned as-is; no parse error is
ever propagated. -/
theorem settings_load_total (s : Settings) :
    Settings.load .absent = (Settings.default, []) ∧
    Settings.load .malformed =
      (Settings.default, [LoadAction.renamedAside]) ∧
    Settings.load (.parsed s) = (s, []) :=
  ⟨rfl, rfl, rfl⟩

/-- C9: the default configuration ships exactly 17 rules, each with a
non-empty extension set, and has the date pattern disabled and empty,
no sources and an empty destination root. -/
theorem default_settings_invariants :
    Settings.default.sort_patterns.length = 17 ∧
    (∀ r ∈ Settings.default.sort_patterns, r.extensions ≠ []) ∧
    Settings.default.use_date_pattern = false ∧
    Settings.default.date_pattern = "" ∧
    Settings.default.sources = [] ∧
    Settings.default.destination = [] := by
  refine ⟨rfl, ?_, rfl, rfl, rfl, rfl⟩
  decide

/-- C4: `find_match` returns the first rule, in list order, whose
extension set contains the file's lowercased final extension or whose
MIME set contains the supplied hint; it returns `none` exactly when no
rule satisfies either condition.  In particular rule order is the sole
tie-break. -/
theorem find_match_first_rule_wins (rules : List SortPattern) (fn : String)
    (hint : Option String) :
    (∀ r, find_match rules fn hint = some r →
      ∃ i : Fin rules.length, rules.get i = r ∧
        ruleMatches r fn hint = true ∧
        ∀ j : Fin rules.length, (j : Nat) < (i : Nat) →
          ruleMatches (rules.get j) fn hint = false) ∧
    (find_match rules fn hint = none ↔
      ∀ r ∈ rules, ruleMatches r fn hint = false) := by
  constructor
  · intro r h
    exact find?_first_match _ rules r h
  · simp [find_match]

/-- C4 witness: on two rules that both match `a.zip`, the first one is
returned and the position before it holds no matching rule. -/
theorem find_match_first_rule_wins_witness :
    ∃ i : Fin ([ruleA, ruleB] : List SortPattern).length,
      ([ruleA, ruleB] : List SortPattern).get i = ruleA ∧
      ruleMatches ruleA "a.zip" none = true ∧
      ∀ j : Fin ([ruleA, ruleB] : List SortPattern).length,
        (j : Nat) < (i : Nat) →
        ruleMatches (([ruleA, ruleB] : List SortPattern).get j) "a.zip"
          none = false :=
  (find_match_first_rule_wins [ruleA, ruleB] "a.zip" none).1 ruleA (by decide)

/-- C6: `create_dir` is idempotent: after a success, running it again on
the same path succeeds without changing the filesystem. -/
theorem create_dir_idempotent (fs fs' : Fs) (p : FsPath)
    (h : create_dir fs p = .ok fs') : create_dir fs' p = .ok fs' := by
  unfold create_dir at h ⊢
  cases hp : Fs.present fs p <;> rw [hp] at h <;> simp at h
  · cases hc : canCreateAll fs p <;> rw [hc] at h <;> simp at h
    by_cases hnil : p = []
    · subst hnil
      have hall : mkdirAll fs [] = fs := by
        unfold mkdirAll prefixesOf
        simp
      rw [hall] at h
      rw [← h, hp, hc, hall]
      simp
    · have hdir := lookup_mkdirAll_self fs p hnil hp
      rw [← h]
      have hpres : Fs.present (mkdirAll fs p) p = true := by
        simp [Fs.present, hdir]
      have hisdir : Fs.isDir (mkdirAll fs p) p = true := by
        simp [Fs.isDir, hdir]
      simp [hpres, hisdir]
  · cases hd : Fs.isDir fs p <;> rw [hd] at h <;> simp at h
    rw [← h, hp, hd]
    simp

/-- C6 witness: creating `out` in the empty filesystem and creating it
again is a no-op success. -/
theorem create_dir_idempotent_witness :
    create_dir [(["out"], Node.dir)] ["out"] = .ok [(["out"], Node.dir)] :=
  create_dir_idempotent [] [(["out"], Node.dir)] ["out"] rfl

/-- C5: if a component of the computed destination exists but is not a
directory, `create_dir` panics (either at its explicit not-a-directory
check or at the `create_dir_all` error), and the panic aborts the whole
run instead of becoming a per-file failure. -/
theorem destination_component_not_dir_fatal (s : Settings) (fs : Fs)
    (f : FileCand) (rest : List FileCand) (rule : SortPattern)
    (dir q : FsPath)
    (hm : find_match s.sort_patterns (filenameOf f.path) f.hint = some rule)
    (hres : get_destination_dir s f.mtime rule.destination = .ok dir)
    (hq : q ∈ prefixesOf dir) (hpres : Fs.present fs q = true)
    (hnd : Fs.isDir fs q = false)
    (hnotdir : ¬(Fs.present fs dir = true ∧ Fs.isDir fs dir = true)) :
    ∃ p : Panic, create_dir fs dir = .error p ∧
      relocate s fs (f :: rest) = .error (p, fs) := by
  have hcd : ∃ p, create_dir fs dir = .error p := by
    cases hp : Fs.present fs dir
    · have hc : canCreateAll fs dir = false := by
        cases hc : canCreateAll fs dir
        · rfl
        · exfalso
          unfold canCreateAll at hc
          have := List.all_eq_true.mp hc q hq
          rw [hpres, hnd] at this
          simp at this
      exact ⟨.createDirFailed, by simp [create_dir, hp, hc]⟩
    · have hd : Fs.isDir fs dir = false := by
        cases hd : Fs.isDir fs dir
        · rfl
        · exact absurd ⟨hp, hd⟩ hnotdir
      exact ⟨.notADirectory, by simp [create_dir, hp, hd]⟩
  obtain ⟨p, hcdir⟩ := hcd
  refine ⟨p, hcdir, ?_⟩
  simp [relocate, processFile, move_file, hm, hres, hcdir]

/-- C5 witness: with the destination root existing as a regular file, the
run on a matching candidate aborts at directory creation. -/
theorem destination_component_not_dir_fatal_witness :
    ∃ p : Panic, create_dir fsRootIsFile ["out", "archives"] = .error p ∧
      relocate cfgPlain fsRootIsFile [candA] = .error (p, fsRootIsFile) :=
  destination_component_not_dir_fatal cfgPlain fsRootIsFile candA [] ruleA
    ["out", "archives"] ["out"] (by decide) rfl (by decide) (by decide)
    (by decide) (by decide)

/-- C2 counterexample: when the destination file already exists, the move
step panics and the whole run aborts: no `Failed` outcome with the rename
cause is recorded and the next candidate is never reached, contradicting
the claim that processing continues per-file. -/
theorem move_failure_not_recoverable_counterexample :
    ¬ ∃ r : Fs × List Outcome,
        relocate cfgPlain fsCollide [candA, candB] = .ok r ∧
        Outcome.failed candA.path Panic.renameFailed ∈ r.2 := by
  rintro ⟨r, hr, -⟩
  rw [show relocate cfgPlain fsCollide [candA, candB] =
      .error (Panic.renameFailed, fsCollide) from rfl] at hr
  exact Except.noConfusion hr

/-- C2 amended: when the rename of a matched candidate fails, the run
aborts with a rename panic (no outcome list is produced and later
candidates are not processed), and the source file is left exactly where
it was. -/
theorem move_failure_aborts_run (s : Settings) (fs fs1 : Fs) (f : FileCand)
    (rest : List FileCand) (rule : SortPattern) (dir : FsPath)
    (hm : find_match s.sort_patterns (filenameOf f.path) f.hint = some rule)
    (hres : get_destination_dir s f.mtime rule.destination = .ok dir)
    (hcd : create_dir fs dir = .ok fs1)
    (hren : renameFile fs1 f.path (dir ++ [filenameOf f.path]) = none)
    (hsrc : Fs.present fs f.path = true) :
    relocate s fs (f :: rest) = .error (Panic.renameFailed, fs1) ∧
    Fs.lookup fs1 f.path = Fs.lookup fs f.path := by
  constructor
  · simp [relocate, processFile, move_file, hm, hres, hcd, hren]
  · exact create_dir_preserves_present fs fs1 dir f.path hcd hsrc

/-- C2 amended witness: the collision scenario instantiated concretely. -/
theorem move_failure_aborts_run_witness :
    relocate cfgPlain fsCollide [candA, candB] =
      .error (Panic.renameFailed, fsCollide) ∧
    Fs.lookup fsCollide candA.path = Fs.lookup fsCollide candA.path :=
  move_failure_aborts_run cfgPlain fsCollide fsCollide candA [candB] ruleA
    ["out", "archives"] (by decide) rfl rfl rfl (by decide)

/-- C3 counterexample: with the date pattern on and the candidate's
metadata unreadable, the run aborts with the metadata panic: no
`Failed` outcome with the metadata cause is recorded and the remaining
candidate is never processed, contradicting the claim that the file is
skipped and the run continues. -/
theorem metadata_failure_not_recoverable_counterexample :
    ¬ ∃ r : Fs × List Outcome,
        relocate cfgDated fsPlain [candNoMeta, candB] = .ok r ∧
        Outcome.failed candNoMeta.path Panic.metadataUnwrap ∈ r.2 := by
  rintro ⟨r, hr, -⟩
  rw [show relocate cfgDated fsPlain [candNoMeta, candB] =
      .error (Panic.metadataUnwrap, fsPlain) from rfl] at hr
  exact Except.noConfusion hr

/-- C3 amended: with the date pattern on, a matched candidate whose
modification time cannot be read makes the run abort with the metadata
panic at that file; the filesystem is untouched and later candidates are
not processed. -/
theorem metadata_failure_aborts_run (s : Settings) (fs : Fs) (f : FileCand)
    (rest : List FileCand) (rule : SortPattern)
    (hm : find_match s.sort_patterns (filenameOf f.path) f.hint = some rule)
    (hd : s.use_date_pattern = true) (hmt : f.mtime = none) :
    relocate s fs (f :: rest) = .error (Panic.metadataUnwrap, fs) := by
  simp [relocate, processFile, get_destination_dir, hm, hd, hmt]

/-- C3 amended witness: the unreadable-metadata scenario instantiated
concretely. -/
theorem metadata_failure_aborts_run_witness :
    relocate cfgDated fsPlain [candNoMeta, candB] =
      .error (Panic.metadataUnwrap, fsPlain) :=
  metadata_failure_aborts_run cfgDated fsPlain candNoMeta [candB] ruleA
    (by decide) rfl rfl

/-- C10: each builder method changes only its own field: `add_source`
appends one source and leaves the rest unchanged, and the three setters
overwrite exactly the field of the same name. -/
theorem builder_methods_frame (s : Settings) (src d : FsPath) (b : Bool)
    (p : String) :
    (s.add_source src).sources = s.sources ++ [src] ∧
    (s.add_source src).destination = s.destination ∧
    (s.add_source src).use_date_pattern = s.use_date_pattern ∧
    (s.add_source src).date_pattern = s.date_pattern ∧
    (s.add_source src).sort_patterns = s.sort_patterns ∧
    (s.setDestination d).destination = d ∧
    (s.setDestination d).sources = s.sources ∧
    (s.setDestination d).use_date_pattern = s.use_date_pattern ∧
    (s.setDestination d).date_pattern = s.date_pattern ∧
    (s.setDestination d).sort_patterns = s.sort_patterns ∧
    (s.setUseDatePattern b).use_date_pattern = b ∧
    (s.setUseDatePattern b).sources = s.sources ∧
    (s.setUseDatePattern b).destination = s.destination ∧
    (s.setUseDatePattern b).date_pattern = s.date_pattern ∧
    (s.setUseDatePattern b).sort_patterns = s.sort_patterns ∧
    (s.setDatePattern p).date_pattern = p ∧
    (s.setDatePattern p).sources = s.sources ∧
    (s.setDatePattern p).destination = s.destination ∧
    (s.setDatePattern p).use_date_pattern = s.use_date_pattern ∧
    (s.setDatePattern p).sort_patterns = s.sort_patterns :=
  ⟨rfl, rfl, rfl, rfl, rfl, rfl, rfl, rfl, rfl, rfl, rfl, rfl, rfl, rfl,
   rfl, rfl, rfl, rfl, rfl, rfl⟩

end FileSorter
